import Mathlib

/-!
Verification of the `moleculer-db-adapter-dynamodb` adapter (`src/index.js`).

The adapter is a thin translation layer between the moleculer-db generic
CRUD interface and the external `dynamodb` object-mapping library.  We give
a shallow embedding: JS attribute values become the inductive `Value`,
entities (plain JS objects) become association lists `Rec`, the filter
parameter object becomes `Params`, and the builder object produced by
`createCursor` becomes the `Scan` structure.  Operations that issue store
requests are embedded as pure functions that also report the list of
requests they make, so that claims about which requests are (not) issued
are statable.
-/

namespace DynamoDbAdapter

/-- A JS attribute value as it occurs in entities, queries and filters. -/
inductive Value where
  | str : String → Value
  | num : Int → Value
  | bool : Bool → Value
deriving DecidableEq, Repr

/-- An entity record: a plain JS object, an association list from attribute
names to values in property-insertion order. -/
abbrev Rec := List (String × Value)

/-- JS property access `obj[k]` on an association list (first binding wins;
JS objects have unique keys, so association lists with unique keys are the
faithful image). -/
def getAttr : Rec → String → Option Value
  | [], _ => none
  | (k2, v) :: rest, k => if k2 = k then some v else getAttr rest k

/-- The filter parameter object accepted by `find` / `createCursor`
(`src/index.js` documents `limit`, `offset`, `sort`, `search`,
`searchFields`, `query`).  Every field may be absent; `limit` may hold any
JS value (the code guards with `_.isNumber`). -/
structure Params where
  limit : Option Value
  offset : Option Value
  sort : Option Value
  search : Option Value
  searchFields : Option Value
  query : Option Rec
deriving DecidableEq, Repr

/-- The params object with every recognized field absent. -/
def emptyParams : Params :=
  { limit := none, offset := none, sort := none, search := none,
    searchFields := none, query := none }

/-- The scan builder state accumulated by `createCursor`: the
`where(key).equals(value)` conditions in the order they were added, the
`limit(n)` argument when one was applied, and whether `loadAll()` was
requested.  Embeds the builder contract of the external `dynamodb` library
(`scan()`, `.where`, `.equals`, `.limit`, `.loadAll`). -/
structure Scan where
  conditions : List (String × Value)
  limitVal : Option Int
  loadAll : Bool
deriving DecidableEq, Repr

/-- `_.isNumber(params.limit) && params.limit > 0` followed by
`scan.limit(params.limit)`: the limit actually applied to the scan, `none`
when the field is absent, not a number, or not positive. -/
def appliedLimit : Option Value → Option Int
  | some (Value.num n) => if 0 < n then some n else none
  | _ => none

/-- `createCursor(params)` from `src/index.js`: with no params, a bare
`scan().loadAll()`; otherwise a scan with the limit applied when positive,
one `equals` condition per key/value pair of `query` (in key order), and
`loadAll()` always requested.  `offset`, `sort`, `search`, `searchFields`
are never read. -/
def createCursor : Option Params → Scan
  | none => { conditions := [], limitVal := none, loadAll := true }
  | some p =>
      { conditions := p.query.getD [],
        limitVal := appliedLimit p.limit,
        loadAll := true }

/-- One `where(key).equals(value)` condition holds of a record exactly when
the named attribute is present with that value. -/
def matchesCond (e : Rec) (c : String × Value) : Bool :=
  decide (getAttr e c.1 = some c.2)

/-- A record satisfies a scan when it satisfies every accumulated equality
condition (DynamoDB filter expressions conjoin the conditions). -/
def scanMatches (s : Scan) (e : Rec) : Bool :=
  s.conditions.all (matchesCond e)

/-- Modelled from the spec: the execution step of the external `dynamodb`
library's scan (not part of this repository's source).  Per §6 of the spec
the scan "must return a builder supporting `where(field)`,
`.equals(value)`, `.in(list)`, `.limit(n)`, `.loadAll()`, and an execution
step yielding a container with an `Items` sequence"; per §4.1 the built
request honors `limit` and the equality `query` terms and "returns only the
matched items".  So execution filters the store by the conditions and
truncates to the limit when one was applied. -/
def execScan (s : Scan) (store : List Rec) : List Rec :=
  let ms := store.filter (scanMatches s)
  match s.limitVal with
  | some n => ms.take n.toNat
  | none => ms

/-- `find(filters)`: executes the cursor and resolves with its `Items`. -/
def find (filters : Option Params) (store : List Rec) : List Rec :=
  execScan (createCursor filters) store

/-- The spread `{ ...filters, ...{ limit: 1 } }` used by `findOne`: all
fields of the incoming filter kept, `limit` overwritten with the number 1
(spreading `undefined` contributes nothing). -/
def withLimitOne : Option Params → Params
  | none => { emptyParams with limit := some (Value.num 1) }
  | some p => { p with limit := some (Value.num 1) }

/-- The ternary `item.length === 1 ? item[0] : null` applied by `findOne`
to the list `find` resolved with. -/
def selectOne : List Rec → Option Rec
  | [x] => some x
  | _ => none

/-- `findOne(filters)`: `find` with the same filter and `limit` forced to 1,
then the single item when exactly one came back, else `null`. -/
def findOne (filters : Option Params) (store : List Rec) : Option Rec :=
  selectOne (find (some (withLimitOne filters)) store)

/-- `count(/*filters = {}*/)` from `src/index.js`: the body is `return 0;`
(the commented-out default parameter means it may be called with or without
a filter).  It takes no store argument because the code reads no stored
data. -/
def count (_filters : Option Params) : Int := 0

/-- A JS error value: AWS SDK errors carry a `code` string, plain
`new Error(msg)` values do not. -/
structure JsError where
  code : Option String
  message : String
deriving DecidableEq, Repr

/-- A request issued against the backing store. -/
inductive StoreReq where
  | createTable
  | update (payload : String → Option Value)

/-- The AWS connection settings object expected under `opts.aws`. -/
structure AwsConfig where
  accessKeyId : String
  secretAccessKey : String
  region : String
deriving DecidableEq, Repr

/-- The schema-bound model object supplied by the hosting service (external
`dynamodb` model; opaque here beyond its table name). -/
structure Model where
  tableName : String
deriving DecidableEq, Repr

/-- The constructor options object.  `aws := none` models an options object
whose `aws` field is absent (falsy). -/
structure AdapterOpts where
  aws : Option AwsConfig
  shouldCreateTable : Bool
  hashKey : Option String
  rangeKey : Option String
deriving DecidableEq, Repr

/-- The error thrown by the constructor when `opts.aws` is falsy. -/
def awsConfigError : JsError :=
  { code := none, message := "aws config should be provided" }

/-- The error thrown by `init` when the service schema supplies no model. -/
def missingModelError : JsError :=
  { code := none, message := "Missing `model` or definition in schema of service!" }

/-- The adapter instance produced by a successful construction. -/
structure Adapter where
  opts : AdapterOpts
deriving DecidableEq, Repr

/-- `constructor(opts)` from `src/index.js`: stores the options, then throws
synchronously when `opts.aws` is absent.  The second component is the list
of store requests made during construction (the body makes none). -/
def construct (opts : AdapterOpts) : Except JsError Adapter × List StoreReq :=
  if opts.aws.isSome then (Except.ok { opts := opts }, [])
  else (Except.error awsConfigError, [])

/-- The service schema as seen by `init`: it may or may not supply a model. -/
structure ServiceSchema where
  model : Option Model
deriving DecidableEq, Repr

/-- `init(broker, service)` from `src/index.js`: updates the (process-wide)
AWS config, then throws synchronously when `service.schema.model` is
absent, else records the model.  The second component is the list of store
requests made (none; `AWS.config.update` is a local configuration write,
not a store request). -/
def init (schema : ServiceSchema) : Except JsError Model × List StoreReq :=
  match schema.model with
  | some m => (Except.ok m, [])
  | none => (Except.error missingModelError, [])

/-- The `err.code === 'ResourceInUseException'` comparison in `connect`. -/
def isResourceInUse (e : JsError) : Bool :=
  decide (e.code = some "ResourceInUseException")

/-- `connect()` from `src/index.js`, with the outcome of the (external)
`model.createTable()` call passed in as an oracle: when
`opts.shouldCreateTable` is set the call is awaited and a
`ResourceInUseException` failure is swallowed while any other failure is
rethrown unmodified; otherwise the oracle is never consulted. -/
def connectResult (shouldCreateTable : Bool)
    (ctOutcome : Except JsError Unit) : Except JsError Unit :=
  if shouldCreateTable then
    match ctOutcome with
    | Except.ok _ => Except.ok ()
    | Except.error e =>
        if isResourceInUse e then Except.ok () else Except.error e
  else Except.ok ()

/-- The table-creation requests `connect` issues: exactly one when
`shouldCreateTable` is set, none otherwise. -/
def connectRequests (shouldCreateTable : Bool) : List StoreReq :=
  if shouldCreateTable then [StoreReq.createTable] else []

/-- The payload `{ ...update.$set, [this.hashKey]: id }` built by
`updateById`, as the lookup function it denotes: the hash-key property is
written last so it wins, every other key comes from the `$set` object. -/
def updateByIdData (hashKey : String) (id : Value) (setFields : Rec) :
    String → Option Value :=
  fun k => if k = hashKey then some id else getAttr setFields k

/-- `updateById(id, update)`: builds the payload and issues the single
`model.update(data)` request. -/
def updateByIdRequests (hashKey : String) (id : Value) (setFields : Rec) :
    List StoreReq :=
  [StoreReq.update (updateByIdData hashKey id setFields)]

/-- A store entity handle as seen by `entityToObject`: its attribute data,
and `toJSON = some r` exactly when the entity exposes a serialization
method (as a function) whose result is `r`. -/
structure DbEntity where
  attrs : Rec
  toJSON : Option Rec
deriving DecidableEq, Repr

/-- `entityToObject(entity)` from `src/index.js`:
`typeof entity.toJSON === 'function' ? entity.toJSON() : entity` — the
serialization result when the method is exposed, else the entity itself. -/
def entityToObject (e : DbEntity) : Sum Rec DbEntity :=
  match e.toJSON with
  | some r => Sum.inl r
  | none => Sum.inr e

/-- Scan builders are equivalent when they carry the same limit, the same
pagination mode, and match exactly the same records. -/
def ScanEquiv (s1 s2 : Scan) : Prop :=
  s1.limitVal = s2.limitVal ∧ s1.loadAll = s2.loadAll ∧
    ∀ e : Rec, scanMatches s1 e = scanMatches s2 e

/-! ### Theorems -/

/-- C1: for every filter object (and also when called with no argument),
`count` returns 0; it takes no store argument and reads neither the stored
data nor the filter, so it never throws and never consults them. -/
theorem count_always_zero : ∀ filters : Option Params, count filters = 0 :=
  fun _ => rfl

/-- C6: during `connect` with `shouldCreateTable = true`, a table-creation
failure whose code is `ResourceInUseException` is swallowed and `connect`
resolves; any other failure rejects `connect` with that error unmodified; a
successful creation resolves; and with `shouldCreateTable` falsy no
table-creation request is issued. -/
theorem connect_table_creation (e : JsError) :
    (e.code = some "ResourceInUseException" →
      connectResult true (Except.error e) = Except.ok ()) ∧
    (e.code ≠ some "ResourceInUseException" →
      connectResult true (Except.error e) = Except.error e) ∧
    connectResult true (Except.ok ()) = Except.ok () ∧
    connectRequests false = [] := by
  refine ⟨fun h => ?_, fun h => ?_, rfl, rfl⟩ <;>
    simp [connectResult, isResourceInUse, h]

/-- C6 witness: a creation failure with code `ResourceInUseException` is
tolerated at a concrete input. -/
theorem connect_table_creation_witness :
    connectResult true
      (Except.error { code := some "ResourceInUseException",
                      message := "table exists" }) = Except.ok () :=
  (connect_table_creation _).1 rfl

/-- C7: an options object without an `aws` field makes the constructor
throw synchronously, and a service schema without a model makes `init`
throw synchronously; in both cases the list of store requests issued is
empty. -/
theorem config_errors (opts : AdapterOpts) (schema : ServiceSchema) :
    (opts.aws = none → construct opts = (Except.error awsConfigError, [])) ∧
    (schema.model = none → init schema = (Except.error missingModelError, [])) := by
  constructor
  · intro h
    simp [construct, h]
  · intro h
    simp [init, h]

/-- A concrete options object whose `aws` field is absent. -/
def optsNoAws : AdapterOpts :=
  { aws := none, shouldCreateTable := false, hashKey := none, rangeKey := none }

/-- A concrete service schema supplying no model. -/
def schemaNoModel : ServiceSchema := { model := none }

/-- C7 witness: concrete option and schema objects missing the required
fields produce the synchronous errors with no store request. -/
theorem config_errors_witness :
    construct optsNoAws = (Except.error awsConfigError, []) ∧
      init schemaNoModel = (Except.error missingModelError, []) :=
  ⟨(config_errors optsNoAws schemaNoModel).1 rfl,
   (config_errors optsNoAws schemaNoModel).2 rfl⟩

/-- C8: `updateById` issues a single update request; its payload binds the
hash-key attribute to the id, takes every other key from the `$set`
object, and in particular never contains the range-key attribute unless
`$set` contains it. -/
theorem updateById_payload (hk : String) (id : Value) (setFields : Rec) :
    (updateByIdRequests hk id setFields).length = 1 ∧
    updateByIdData hk id setFields hk = some id ∧
    (∀ k, k ≠ hk → updateByIdData hk id setFields k = getAttr setFields k) ∧
    (∀ rk, rk ≠ hk → getAttr setFields rk = none →
      updateByIdData hk id setFields rk = none) := by
  refine ⟨rfl, by simp [updateByIdData], fun k hk2 => ?_, fun rk h1 h2 => ?_⟩
  · simp [updateByIdData, hk2]
  · simp [updateByIdData, h1, h2]

/-- C8 witness: at a concrete update with hash key `userId` and range key
`createdAt` not in `$set`, the payload binds the hash key to the id and
omits the range key. -/
theorem updateById_payload_witness :
    updateByIdData "userId" (Value.str "u1") [("title", Value.str "t")]
        "userId" = some (Value.str "u1") ∧
      updateByIdData "userId" (Value.str "u1") [("title", Value.str "t")]
        "createdAt" = none :=
  ⟨(updateById_payload "userId" (Value.str "u1")
      [("title", Value.str "t")]).2.1,
   (updateById_payload "userId" (Value.str "u1")
      [("title", Value.str "t")]).2.2.2 "createdAt" (by decide) (by decide)⟩

/-- C9: `entityToObject` returns the result of the entity's serialization
method when the entity exposes one as a function, and otherwise returns the
entity itself unchanged. -/
theorem entityToObject_spec (e : DbEntity) :
    (∀ r, e.toJSON = some r → entityToObject e = Sum.inl r) ∧
    (e.toJSON = none → entityToObject e = Sum.inr e) := by
  constructor
  · intro r h
    simp [entityToObject, h]
  · intro h
    simp [entityToObject, h]

/-- C9 witness: a concrete entity exposing a serialization method is mapped
to its result, and one without is passed through unchanged. -/
theorem entityToObject_spec_witness :
    entityToObject { attrs := [("a", Value.num 1)],
                     toJSON := some [("a", Value.num 1)] }
        = Sum.inl [("a", Value.num 1)] ∧
      entityToObject { attrs := [("a", Value.num 1)], toJSON := none }
        = Sum.inr { attrs := [("a", Value.num 1)], toJSON := none } :=
  ⟨(entityToObject_spec _).1 _ rfl, (entityToObject_spec _).2 rfl⟩

/-- C2: when the filter's `limit` field is a positive number `n` and the
store holds more than `n` records matching the filter's query conditions,
`find` resolves with at most `n` items. -/
theorem find_respects_limit (p : Params) (store : List Rec) (n : Int)
    (hl : p.limit = some (Value.num n)) (hn : 0 < n)
    (_hm : n.toNat <
      (store.filter (scanMatches (createCursor (some p)))).length) :
    (find (some p) store).length ≤ n.toNat := by
  simp only [find, execScan, createCursor, appliedLimit, hl, if_pos hn]
  simp [List.length_take]

/-- A concrete filter with `limit = 1` and a one-condition query. -/
def limitOneParams : Params :=
  { emptyParams with limit := some (Value.num 1),
                     query := some [("s", Value.str "open")] }

/-- A concrete store holding two records matching `limitOneParams`. -/
def twoMatchStore : List Rec :=
  [[("s", Value.str "open")], [("s", Value.str "open"), ("k", Value.num 2)]]

/-- C2 witness: at a concrete filter with limit 1 over a store with two
matching records, `find` returns at most one item. -/
theorem find_respects_limit_witness :
    (find (some limitOneParams) twoMatchStore).length ≤ (1 : Int).toNat :=
  find_respects_limit limitOneParams twoMatchStore 1 rfl (by decide)
    (by decide)

/-- C3: `findOne` calls `find` with the same filter except that `limit` is
forced to the number 1 (every other recognized field is passed through
unchanged), and resolves with the single matching entity when exactly one
record matches, or with `null` when none matches; its result is a single
optional entity, never a sequence. -/
theorem findOne_delegates (p : Params) (store : List Rec) :
    (withLimitOne (some p)).limit = some (Value.num 1) ∧
    (withLimitOne (some p)).query = p.query ∧
    (withLimitOne (some p)).offset = p.offset ∧
    (withLimitOne (some p)).sort = p.sort ∧
    (withLimitOne (some p)).search = p.search ∧
    (withLimitOne (some p)).searchFields = p.searchFields ∧
    (∀ e, store.filter
        (scanMatches (createCursor (some (withLimitOne (some p))))) = [e] →
      findOne (some p) store = some e) ∧
    (store.filter
        (scanMatches (createCursor (some (withLimitOne (some p))))) = [] →
      findOne (some p) store = none) := by
  refine ⟨rfl, rfl, rfl, rfl, rfl, rfl, fun e h => ?_, fun h => ?_⟩
  all_goals
    have key : findOne (some p) store =
        selectOne ((store.filter (scanMatches
          (createCursor (some (withLimitOne (some p)))))).take (1 : Int).toNat) :=
      rfl
    rw [key, h]
    rfl

/-- A concrete filter whose query matches exactly one record of
`twoMatchStore`'s first element shape. -/
def oneMatchParams : Params :=
  { emptyParams with query := some [("s", Value.str "open"),
                                    ("k", Value.num 2)] }

/-- C3 witness: at a concrete filter matching exactly one record of a
two-record store, `findOne` resolves with that single entity, and at an
empty store it resolves with `null`. -/
theorem findOne_delegates_witness :
    findOne (some oneMatchParams) twoMatchStore
        = some [("s", Value.str "open"), ("k", Value.num 2)] ∧
      findOne (some oneMatchParams) [] = none :=
  ⟨(findOne_delegates oneMatchParams twoMatchStore).2.2.2.2.2.2.1
      [("s", Value.str "open"), ("k", Value.num 2)] (by decide),
   (findOne_delegates oneMatchParams []).2.2.2.2.2.2.2 (by decide)⟩

/-- C4: for every non-null params object, `createCursor` always requests
full pagination, accumulates exactly one equality condition per key/value
pair of `query` (in key order), applies the limit exactly when the `limit`
field is a positive number, and reads no other field: two params objects
agreeing on `limit` and `query` produce the same cursor, whatever their
`offset`, `sort`, `search` and `searchFields`. -/
theorem createCursor_contract (p : Params) :
    (createCursor (some p)).loadAll = true ∧
    (createCursor (some p)).conditions = p.query.getD [] ∧
    (∀ n : Int, p.limit = some (Value.num n) → 0 < n →
      (createCursor (some p)).limitVal = some n) ∧
    ((∀ n : Int, p.limit = some (Value.num n) → n ≤ 0) →
      (createCursor (some p)).limitVal = none) ∧
    (∀ p2 : Params, p2.limit = p.limit → p2.query = p.query →
      createCursor (some p2) = createCursor (some p)) := by
  refine ⟨rfl, rfl, fun n h hn => ?_, fun h => ?_, fun p2 h1 h2 => ?_⟩
  · simp [createCursor, appliedLimit, h, hn]
  · simp only [createCursor, appliedLimit]
    match hv : p.limit with
    | none => rfl
    | some (Value.str _) => rfl
    | some (Value.bool _) => rfl
    | some (Value.num n) =>
        have := h n hv
        simp
        omega
  · simp [createCursor, h1, h2]

/-- A concrete params object exercising every recognized filter field. -/
def fullParams : Params :=
  { limit := some (Value.num 5), offset := some (Value.num 10),
    sort := some (Value.str "name"), search := some (Value.str "x"),
    searchFields := some (Value.str "name"),
    query := some [("s", Value.str "open")] }

/-- `fullParams` with different ignored fields and the same limit/query. -/
def fullParamsAltIgnored : Params :=
  { fullParams with offset := none, sort := none, search := none,
                    searchFields := some (Value.num 3) }

/-- C4 witness: at a concrete params object the positive numeric limit 5 is
applied, and changing only the ignored fields leaves the cursor equal. -/
theorem createCursor_contract_witness :
    (createCursor (some fullParams)).limitVal = some 5 ∧
      createCursor (some fullParamsAltIgnored) = createCursor (some fullParams) :=
  ⟨(createCursor_contract fullParams).2.2.1 5 rfl (by decide),
   (createCursor_contract fullParams).2.2.2.2 fullParamsAltIgnored rfl rfl⟩

/-- C5: two params objects whose query mappings hold the same key/value
pairs in different orders (and equal limits) yield equivalent cursors —
same limit, same pagination mode, matching exactly the same records — and
for `query = \x7bstatus: "open"\x7d` the cursor's match predicate is
exactly the single condition "attribute `status` equals `open`". -/
theorem createCursor_query_order :
    (∀ (p1 p2 : Params) (q1 q2 : Rec), p1.query = some q1 →
      p2.query = some q2 → q1.Perm q2 → p1.limit = p2.limit →
      ScanEquiv (createCursor (some p1)) (createCursor (some p2))) ∧
    (∀ e : Rec,
      scanMatches (createCursor (some { emptyParams with
          query := some [("status", Value.str "open")] })) e
        = matchesCond e ("status", Value.str "open")) := by
  constructor
  · intro p1 p2 q1 q2 h1 h2 hperm hlim
    refine ⟨by simp [createCursor, hlim], rfl, fun e => ?_⟩
    simp only [scanMatches, createCursor, h1, h2, Option.getD_some]
    cases ha : q1.all (matchesCond e) with
    | false =>
        cases hb : q2.all (matchesCond e) with
        | false => rfl
        | true =>
            exfalso
            rw [List.all_eq_true] at hb
            have : q1.all (matchesCond e) = true := by
              rw [List.all_eq_true]
              intro c hc
              exact hb c (hperm.mem_iff.mp hc)
            simp [this] at ha
    | true =>
        rw [List.all_eq_true] at ha
        symm
        rw [List.all_eq_true]
        intro c hc
        exact ha c (hperm.mem_iff.mpr hc)
  · intro e
    simp [scanMatches, createCursor]

/-- A two-condition query in one insertion order. -/
def queryAB : Rec := [("a", Value.num 1), ("b", Value.num 2)]

/-- The same two key/value pairs in the other insertion order. -/
def queryBA : Rec := [("b", Value.num 2), ("a", Value.num 1)]

/-- Params carrying `queryAB`. -/
def paramsAB : Params := { emptyParams with query := some queryAB }

/-- Params carrying `queryBA`. -/
def paramsBA : Params := { emptyParams with query := some queryBA }

/-- C5 witness: at concrete params whose queries are the same pairs in the
two insertion orders, the built cursors are equivalent. -/
theorem createCursor_query_order_witness :
    ScanEquiv (createCursor (some paramsAB)) (createCursor (some paramsBA)) :=
  createCursor_query_order.1 paramsAB paramsBA queryAB queryBA rfl rfl
    (List.Perm.swap ("b", Value.num 2) ("a", Value.num 1) []) rfl

/-- C10: `findOne` resolves with `null` whenever the underlying `find`
resolves with a list whose length is not exactly 1; in particular the
selection `item.length === 1 ? item.get 0 : null` yields `null` on every
list of two or more items rather than the first item. -/
theorem findOne_null_when_not_single :
    (∀ l : List Rec, l.length ≠ 1 → selectOne l = none) ∧
    (∀ (filters : Option Params) (store : List Rec),
      (find (some (withLimitOne filters)) store).length ≠ 1 →
      findOne filters store = none) := by
  have h1 : ∀ l : List Rec, l.length ≠ 1 → selectOne l = none := by
    intro l hl
    match l with
    | [] => rfl
    | [_] => exact absurd rfl hl
    | _ :: _ :: _ => rfl
  exact ⟨h1, fun filters store h => h1 _ h⟩

/-- C10 witness: a concrete two-item find result is selected to `null`, and
`findOne` over the empty store (zero-length find result) is `null`. -/
theorem findOne_null_when_not_single_witness :
    selectOne twoMatchStore = none ∧ findOne none [] = none :=
  ⟨findOne_null_when_not_single.1 twoMatchStore (by decide),
   findOne_null_when_not_single.2 none [] (by decide)⟩

end DynamoDbAdapter
